import Mathlib

/-!
Shallow embedding of the CHEM•VIZ PDF report layout engine
(`PDFReportGenerator` in `src/services/pdfReportGenerator.js`), its layout
configuration (`PDF_REPORT_CONFIG` in `src/config/pdfReportConfig.js`),
the fetch layer (`src/services/api.js`) and the on-screen data preview
table (`DataPreviewTable` in `SummaryScreen.jsx`).

Drawing calls on the jsPDF document (`doc.text`, `doc.rect`,
`doc.roundedRect`, `doc.line`, `doc.addPage`, `doc.setPage`) are modelled
as an explicit event trace; the mutable instance fields (`currentY`, page
dimensions, current font and colors) are threaded as an explicit
`DocState`.  Every drawing routine returns the updated state together with
the list of events it emitted, in emission order.  Coordinates and numeric
values are rationals; JavaScript string truncation (`substring`) is
`String.take`; colors are carried as their hex strings (the source's
`hexToRgb` conversion is injective on the well-formed hex constants used,
so nothing is lost by not expanding it).
-/

namespace ChemViz

/-- A JavaScript cell value as it can appear in a preview-table row object:
`null`/`undefined` (merged: the source's `??` and `String` conversions never
distinguish them on the paths modelled here, because `??` absorbs both before
`String` is applied), a string, or a number. -/
inductive JCell where
  | null
  | str (s : String)
  | num (q : ℚ)
deriving DecidableEq, Repr

/-- A preview-table row object: a finite map from property names to values,
as an association list.  Array rows are covered by numeric-string keys
("0", "1", ...), matching JavaScript property lookup on arrays. -/
def Row := List (String × JCell)

/-- JavaScript property read `row[key]`: an absent property reads as
`undefined`, merged with `null` in the model. -/
def jsGet (row : Row) (key : String) : JCell :=
  match List.lookup key row with
  | some c => c
  | none => JCell.null

/-- JavaScript `a ?? b` on cell values (both `null` and `undefined` are
`JCell.null` in the model). -/
def jsQQ (a b : JCell) : JCell :=
  if a = JCell.null then b else a

/-- Display model of JavaScript `String(v)` on a cell value.  Integral
numbers print without a decimal point; non-integral rationals print as
`num/den` (a display model only: no claim observes a non-integral numeric
cell). -/
def jsCellString : JCell → String
  | JCell.null => "null"
  | JCell.str s => s
  | JCell.num q => if q.den = 1 then toString q.num else toString q

/-- `Math.max(...values)`; only ever used on non-empty lists (the source
guards with `values.length === 0`). -/
def maxOf : List ℚ → ℚ
  | [] => 0
  | [x] => x
  | x :: y :: xs => max x (maxOf (y :: xs))

/-- Display model of JavaScript `x.toFixed(1)`: round to the nearest tenth
(ties up) and print with exactly one decimal digit. -/
def toFixed1 (q : ℚ) : String :=
  let n : ℤ := round (q * 10)
  let sign := if n < 0 then "-" else ""
  sign ++ toString (n.natAbs / 10) ++ "." ++ toString (n.natAbs % 10)

/-- Current text attributes of the jsPDF document, as set by `setFont`,
`setFontSize`, `setTextColor`.  The font family is always Helvetica and is
omitted. -/
structure Font where
  style : String
  size : ℚ
  color : String
deriving DecidableEq, Repr

/-- One drawing call recorded on the trace. -/
inductive Ev where
  /-- `doc.text(s, x, y, {align})`, with the font attributes current at the
  call; `align` is "left" when no option object was passed. -/
  | text (s : String) (x y : ℚ) (font : Font) (align : String)
  /-- `doc.rect(x, y, w, h, paint)` with the current fill (`"F"`) or draw
  (`"S"`) color. -/
  | rect (x y w h : ℚ) (paint : String) (color : String)
  /-- `doc.roundedRect(x, y, w, h, rx, ry, paint)` likewise. -/
  | rrect (x y w h rx ry : ℚ) (paint : String) (color : String)
  /-- `doc.line(x1, y1, x2, y2)` with current draw color and line width. -/
  | line (x1 y1 x2 y2 : ℚ) (color : String) (width : ℚ)
  /-- `doc.addPage()`. -/
  | newPage
  /-- `doc.setPage(i)`. -/
  | setPage (i : ℕ)
deriving DecidableEq, Repr

/-- Page margins from `PDF_REPORT_CONFIG.page.margins`. -/
structure Margins where
  top : ℚ
  bottom : ℚ
  left : ℚ
  right : ℚ

/-- The slice of `PDF_REPORT_CONFIG` the generator reads. -/
structure Config where
  margins : Margins
  spacingMd : ℚ
  headerTitleText : String
  headerBorderWidth : ℚ
  metadataMarginTop : ℚ
  metadataMarginBottom : ℚ
  summaryTitle : String
  summaryMarginBottom : ℚ
  chartsTitle : String
  chartsMarginBottom : ℚ
  tableTitle : String
  maxRows : ℕ
  rowHeightCfg : ℚ
  headerBackground : String
  headerTextColor : String
  zebraColor : String
  borderColor : String
  colorDeepIndigo : String
  colorSlateGray : String
  colorTableBorder : String
  colorEquipment : String
  colorTemperature : String
  colorPressure : String

/-- `PDF_REPORT_CONFIG` (`src/config/pdfReportConfig.js`), restricted to the
fields the generator reads. -/
def PDF_REPORT_CONFIG : Config where
  margins := { top := 72, bottom := 72, left := 56, right := 56 }
  spacingMd := 16
  headerTitleText := "CHEM•VIZ Analysis Report"
  headerBorderWidth := 1
  metadataMarginTop := 24
  metadataMarginBottom := 32
  summaryTitle := "Summary"
  summaryMarginBottom := 24
  chartsTitle := "Data Visualization"
  chartsMarginBottom := 24
  tableTitle := "Equipment Data"
  maxRows := 20
  rowHeightCfg := 24
  headerBackground := "#F1F5F9"
  headerTextColor := "#1E2A38"
  zebraColor := "#FAFAFA"
  borderColor := "#E5E7EB"
  colorDeepIndigo := "#1E2A38"
  colorSlateGray := "#6B7280"
  colorTableBorder := "#E5E7EB"
  colorEquipment := "#8B5CF6"
  colorTemperature := "#F59E0B"
  colorPressure := "#EF4444"

/-- The generator's mutable state: the jsPDF document's text attributes and
page count plus the instance fields `currentY`, `pageWidth`, `pageHeight`,
`contentWidth`. -/
structure DocState where
  currentY : ℚ
  pageWidth : ℚ
  pageHeight : ℚ
  contentWidth : ℚ
  font : Font
  pageCount : ℕ
deriving DecidableEq, Repr

/-- The font of the page-header report title (bold 24, deep indigo). -/
def pageTitleFont : Font := { style := "bold", size := 24, color := "#1E2A38" }

/-- The font of a section title (bold 16, deep indigo). -/
def sectionTitleFont : Font := { style := "bold", size := 16, color := "#1E2A38" }

/-- The font of a subsection title (bold 10, deep indigo); also used for the
inline "Pressure Distribution" title. -/
def subsectionTitleFont : Font := { style := "bold", size := 10, color := "#1E2A38" }

/-- The font of the table's data cells (normal 9, deep indigo). -/
def cellFont : Font := { style := "normal", size := 9, color := "#1E2A38" }

/-- The font of the table's own header row (bold 9, the header text color,
which equals deep indigo). -/
def tableHeaderFont : Font := { style := "bold", size := 9, color := "#1E2A38" }

/-- The font of the truncation notice (the generator's only italic text). -/
def noticeFont : Font := { style := "italic", size := 9, color := "#6B7280" }

/-- The font of metadata values (normal 11, deep indigo). -/
def metaValueFont : Font := { style := "normal", size := 11, color := "#1E2A38" }

/-- Dataset metadata as returned raw by `getDataset` (fields the generator
reads; `None` models an absent field, and falsy-or-absent handling follows
the source's `||` defaults at use sites). -/
structure DatasetInfo where
  original_filename : Option String
  row_count : Option ℕ

/-- KPI aggregates as normalized by `getDatasetSummary` in `api.js` (every
field is defaulted there with `??`, so all four are present). -/
structure Kpis where
  totalEquipment : ℚ
  avgFlowrate : ℚ
  avgTemperature : ℚ
  dominantType : String

/-- Result shape of `getDatasetSummary` in `api.js`. -/
structure SummaryData where
  kpis : Kpis
  previewData : List Row
  previewHeaders : List String

/-- JavaScript `s || d` for an optional string (both an absent field and the
empty string are falsy). -/
def jsOrStr (o : Option String) (d : String) : String :=
  match o with
  | some s => if s = "" then d else s
  | none => d

/-- JavaScript `String(q)` for a number, shared with `jsCellString`. -/
def jsNumString (q : ℚ) : String :=
  if q.den = 1 then toString q.num else toString q

/-- `_drawHeader`: centered report title, then a horizontal rule, advancing
the cursor by 36 plus `spacing.md`. -/
def drawHeader (st : DocState) : DocState × List Ev :=
  let cfg := PDF_REPORT_CONFIG
  let f : Font := pageTitleFont
  let e1 := Ev.text cfg.headerTitleText (st.pageWidth / 2) st.currentY f "center"
  let y1 := st.currentY + 36
  let e2 := Ev.line cfg.margins.left y1 (st.pageWidth - cfg.margins.right) y1
    cfg.colorTableBorder cfg.headerBorderWidth
  ({ st with currentY := y1 + cfg.spacingMd, font := f }, [e1, e2])

/-- `_addNewPage`: `doc.addPage()`, cursor reset to the top margin, then the
page header is drawn again. -/
def addNewPage (st : DocState) : DocState × List Ev :=
  let st1 := { st with pageCount := st.pageCount + 1,
                       currentY := PDF_REPORT_CONFIG.margins.top }
  let r := drawHeader st1
  (r.1, Ev.newPage :: r.2)

/-- `_drawSectionTitle`: bold 16pt title, cursor +8, rule, cursor
+`spacing.md`. -/
def drawSectionTitle (title : String) (st : DocState) : DocState × List Ev :=
  let cfg := PDF_REPORT_CONFIG
  let f : Font := sectionTitleFont
  let e1 := Ev.text title cfg.margins.left st.currentY f "left"
  let y1 := st.currentY + 8
  let e2 := Ev.line cfg.margins.left y1 (st.pageWidth - cfg.margins.right) y1
    cfg.colorTableBorder (1/2)
  ({ st with currentY := y1 + cfg.spacingMd, font := f }, [e1, e2])

/-- `_drawSubsectionTitle`: bold 10pt title, cursor +16. -/
def drawSubsectionTitle (title : String) (st : DocState) : DocState × List Ev :=
  let cfg := PDF_REPORT_CONFIG
  let f : Font := subsectionTitleFont
  let e1 := Ev.text title cfg.margins.left st.currentY f "left"
  ({ st with currentY := st.currentY + 16, font := f }, [e1])

/-- `_drawBarChart(labels, values, color, width, height, startX)`: early
return on an empty `values`; otherwise one rounded bar and one ≤8-character
label per value, bar heights scaled by `value / maxValue`, then the Y and X
axis lines; the cursor lands at `y + height`.  A missing label
(`labels[idx]` past the end) renders as JavaScript's `String(undefined)`.
`startX = none` models an absent argument (the source's `startX || margin.left`;
every explicit call site passes a positive number, so `||` and `getD`
agree). -/
def drawBarChart (labels : List String) (values : List ℚ) (color : String)
    (width height : ℚ) (startX : Option ℚ) (st : DocState) : DocState × List Ev :=
  let cfg := PDF_REPORT_CONFIG
  let x := startX.getD cfg.margins.left
  let y := st.currentY
  if values.length = 0 then (st, [])
  else
    let maxValue := maxOf values
    let barCount : ℕ := values.length
    let barWidth := min 40 ((width - 40) / (barCount : ℚ) - 5)
    let chartHeight := height - 30
    let labelFont : Font := { style := st.font.style, size := 7, color := cfg.colorSlateGray }
    let barEvs := (values.enum).flatMap (fun p =>
      let idx := p.1
      let value := p.2
      let barHeight := value / maxValue * chartHeight
      let barX := x + 30 + (idx : ℚ) * (barWidth + 5)
      let barY := y + chartHeight - barHeight
      let label := (match labels.get? idx with
        | some l => l
        | none => "undefined").take 8
      [Ev.rrect barX barY barWidth barHeight 2 2 "F" color,
       Ev.text label (barX + barWidth / 2) (y + chartHeight + 12) labelFont "center"])
    let axis1 := Ev.line (x + 25) y (x + 25) (y + chartHeight) cfg.colorTableBorder (1/2)
    let axis2 := Ev.line (x + 25) (y + chartHeight) (x + width - 10) (y + chartHeight)
      cfg.colorTableBorder (1/2)
    ({ st with currentY := y + height, font := labelFont }, barEvs ++ [axis1, axis2])

/-- `_drawMetadata`: four label/value pairs in a 2×2 grid.  The "Generated"
value (`new Date().toLocaleString()`) is the parameter `now`.  Note the
"Status" value is `kpis.totalEquipment > 0 ? 'Valid' : 'Unknown'`. -/
def drawMetadata (now : String) (info : DatasetInfo) (summary : SummaryData)
    (st : DocState) : DocState × List Ev :=
  let cfg := PDF_REPORT_CONFIG
  let y0 := st.currentY + cfg.metadataMarginTop
  let metadata : List (String × String) :=
    [("Generated", now),
     ("Dataset", jsOrStr info.original_filename "Unknown"),
     ("Records", toString (info.row_count.getD 0)),
     ("Status", if summary.kpis.totalEquipment > 0 then "Valid" else "Unknown")]
  let cellWidth := st.contentWidth / 2
  let startX := cfg.margins.left
  let labelFont : Font := { style := "normal", size := 9, color := cfg.colorSlateGray }
  let valueFont : Font := { style := "normal", size := 11, color := cfg.colorDeepIndigo }
  let step : (ℚ × ℚ × List Ev) → (ℕ × String × String) → (ℚ × ℚ × List Ev) :=
    fun acc p =>
      match acc, p with
      | (currentX, rowY, evs), (idx, label, value) =>
        let e1 := Ev.text (label ++ ":") currentX rowY labelFont "left"
        let e2 := Ev.text value (currentX + 60) rowY valueFont "left"
        if (idx + 1) % 2 = 0 then (startX, rowY + 20, evs ++ [e1, e2])
        else (currentX + cellWidth, rowY, evs ++ [e1, e2])
  let res := metadata.enum.foldl step (startX, y0, [])
  ({ st with currentY := res.2.1 + cfg.metadataMarginBottom, font := valueFont }, res.2.2)

/-- `_drawSummarySection`: section title, then four KPI cards (stroked
rounded rectangle, bold 18pt value, 9pt label); numeric KPIs default 0 on
falsy (`|| 0`, identity on rationals already defaulted by `api.js`), the
dominant type defaults to an em-dash when falsy. -/
def drawSummarySection (kpis : Kpis) (st : DocState) : DocState × List Ev :=
  let cfg := PDF_REPORT_CONFIG
  let r0 := drawSectionTitle cfg.summaryTitle st
  let st1 := r0.1
  let cardWidth := (st1.contentWidth - 3 * 10) / 4
  let cardHeight : ℚ := 60
  let valueFont : Font := { style := "bold", size := 18, color := cfg.colorDeepIndigo }
  let labelFont : Font := { style := "normal", size := 9, color := cfg.colorSlateGray }
  let kpiItems : List (String × String) :=
    [("Total Equipment", jsNumString kpis.totalEquipment),
     ("Avg Flowrate", toFixed1 kpis.avgFlowrate ++ " m³/hr"),
     ("Avg Temperature", toFixed1 kpis.avgTemperature ++ " °C"),
     ("Dominant Type", if kpis.dominantType = "" then "—" else kpis.dominantType)]
  let step : (ℚ × List Ev) → (String × String) → (ℚ × List Ev) :=
    fun acc p =>
      match acc, p with
      | (cardX, evs), (label, value) =>
        let e1 := Ev.rrect cardX st1.currentY cardWidth cardHeight 4 4 "S" cfg.colorTableBorder
        let e2 := Ev.text value (cardX + cardWidth / 2) (st1.currentY + 28) valueFont "center"
        let e3 := Ev.text label (cardX + cardWidth / 2) (st1.currentY + 45) labelFont "center"
        (cardX + cardWidth + 10, evs ++ [e1, e2, e3])
  let res := kpiItems.foldl step (cfg.margins.left, [])
  ({ st1 with currentY := st1.currentY + cardHeight + cfg.summaryMarginBottom,
              font := labelFont }, r0.2 ++ res.2)

/-- One chart-series object as normalized by `getAnalysis` in `api.js`
(`response.X || {}`): the object itself is always present, but its
`labels` / `data` properties may be absent (`none`). -/
structure RawSeries where
  labels : Option (List String)
  data : Option (List ℚ)
deriving DecidableEq, Repr

/-- `chartData` as returned by `getAnalysis`. -/
structure ChartData where
  equipmentTypes : RawSeries
  temperatureVsEquipment : RawSeries
  pressureDistribution : RawSeries
deriving DecidableEq, Repr

/-- `_drawChartsSection`: section title; full-width equipment chart when its
labels are present and non-empty; a page break when fewer than 250 points
remain; then the temperature (left, sliced to 10 entries) and pressure
(right, unsliced) charts side by side, the cursor being rewound by a fixed
140 points before the right chart when the left one was drawn.  Accessing
`labels` of a series whose guard passed on `data` alone throws a
`TypeError` when `labels` is absent (`labels.slice` for temperature,
`labels[idx]` for pressure), modelled as `Except.error`. -/
def drawChartsSection (chartData : ChartData) (st : DocState) :
    Except String (DocState × List Ev) :=
  let cfg := PDF_REPORT_CONFIG
  let r0 := drawSectionTitle cfg.chartsTitle st
  let equip : DocState × List Ev :=
    match chartData.equipmentTypes.labels with
    | some ls =>
      if ls.length > 0 then
        let rA := drawSubsectionTitle "Equipment Distribution by Type" r0.1
        let rB := drawBarChart ls (chartData.equipmentTypes.data.getD [])
          cfg.colorEquipment rA.1.contentWidth 160 none rA.1
        ({ rB.1 with currentY := rB.1.currentY + 20 }, rA.2 ++ rB.2)
      else (r0.1, [])
    | none => (r0.1, [])
  let brk : DocState × List Ev :=
    if equip.1.currentY > equip.1.pageHeight - 250 then addNewPage equip.1
    else (equip.1, [])
  let chartWidth := (brk.1.contentWidth - 20) / 2
  let tempDrawn := (chartData.temperatureVsEquipment.data.getD []).length > 0
  let tempPart : Except String (DocState × List Ev) :=
    if tempDrawn then
      match chartData.temperatureVsEquipment.labels with
      | none =>
        Except.error "TypeError: Cannot read properties of undefined (reading 'slice')"
      | some ls =>
        let rA := drawSubsectionTitle "Temperature Profile" brk.1
        let rB := drawBarChart (ls.take 10)
          ((chartData.temperatureVsEquipment.data.getD []).take 10)
          cfg.colorTemperature chartWidth 120 (some cfg.margins.left) rA.1
        Except.ok (rB.1, rA.2 ++ rB.2)
    else Except.ok (brk.1, [])
  match tempPart with
  | Except.error m => Except.error m
  | Except.ok t3 =>
    let pressPart : Except String (DocState × List Ev) :=
      if (chartData.pressureDistribution.data.getD []).length > 0 then
        let pressStartX := cfg.margins.left + chartWidth + 20
        let stR := if tempDrawn then { t3.1 with currentY := t3.1.currentY - 140 }
          else t3.1
        let f : Font := subsectionTitleFont
        let eT := Ev.text "Pressure Distribution" pressStartX stR.currentY f "left"
        let stT := { stR with currentY := stR.currentY + 16, font := f }
        match chartData.pressureDistribution.labels with
        | none =>
          Except.error "TypeError: Cannot read properties of undefined (reading '0')"
        | some ls =>
          let rB := drawBarChart ls (chartData.pressureDistribution.data.getD [])
            cfg.colorPressure chartWidth 120 (some pressStartX) stT
          Except.ok (rB.1, eT :: rB.2)
      else Except.ok (t3.1, [])
    match pressPart with
    | Except.error m => Except.error m
    | Except.ok t4 =>
      Except.ok ({ t4.1 with currentY := t4.1.currentY + cfg.chartsMarginBottom },
        r0.2 ++ equip.2 ++ brk.2 ++ t3.2 ++ t4.2)

/-- Cell value resolution in `_drawDataTable`:
`row[header] ?? row[colIdx] ?? ''`, then `String(value).substring(0, 12)`. -/
def tableCellText (row : Row) (header : String) (colIdx : ℕ) : String :=
  (jsCellString
    (jsQQ (jsGet row header) (jsQQ (jsGet row (toString colIdx)) (JCell.str "")))).take 12

/-- Cell rendering of the on-screen `DataPreviewTable` in
`SummaryScreen.jsx`: `row[header] ?? row[colIdx] ?? '—'` (rendered via the
same string-display model). -/
def previewCellText (row : Row) (header : String) (colIdx : ℕ) : String :=
  jsCellString
    (jsQQ (jsGet row header) (jsQQ (jsGet row (toString colIdx)) (JCell.str "—")))

/-- One iteration of the data-row loop in `_drawDataTable`: zebra fill on
odd row indices, one ≤12-character cell text per retained header, cursor
+`rowHeight`, then a forced page break (new page plus page header, never the
table's header row) when the cursor passed `pageHeight - bottom - 50`. -/
def drawTableRow (displayHeaders : List String) (colWidth rowHeight : ℚ)
    (row : Row) (rowIdx : ℕ) (st : DocState) : DocState × List Ev :=
  let cfg := PDF_REPORT_CONFIG
  let zebra : List Ev :=
    if rowIdx % 2 = 1 then
      [Ev.rect cfg.margins.left st.currentY st.contentWidth rowHeight "F" cfg.zebraColor]
    else []
  let cells := displayHeaders.enum.map (fun p =>
    Ev.text (tableCellText row p.2 p.1)
      (cfg.margins.left + (p.1 : ℚ) * colWidth + 4) (st.currentY + 14) cellFont "left")
  let st1 := { st with currentY := st.currentY + rowHeight, font := cellFont }
  if st1.currentY > st1.pageHeight - cfg.margins.bottom - 50 then
    let r := addNewPage st1
    (r.1, zebra ++ cells ++ r.2)
  else (st1, zebra ++ cells)

/-- The `displayData.forEach((row, rowIdx) => ...)` loop of
`_drawDataTable`. -/
def drawTableRows (displayHeaders : List String) (colWidth rowHeight : ℚ) :
    List Row → ℕ → DocState → DocState × List Ev
  | [], _, st => (st, [])
  | row :: rest, idx, st =>
    let r1 := drawTableRow displayHeaders colWidth rowHeight row idx st
    let r2 := drawTableRows displayHeaders colWidth rowHeight rest (idx + 1) r1.1
    (r2.1, r1.2 ++ r2.2)

/-- `_drawDataTable(data, headers)`: section title; the empty-data message
and early return when there are no rows; otherwise rows capped at
`maxRows`, headers capped at 6, a filled header row with bold ≤15-character
header texts, the row loop, the table border, and — only when
`data.length > maxRows` — the italic truncation notice. -/
def drawDataTable (data : List Row) (headers : List String) (st : DocState) :
    DocState × List Ev :=
  let cfg := PDF_REPORT_CONFIG
  let r0 := drawSectionTitle cfg.tableTitle st
  let st0 := r0.1
  let e0 := r0.2
  if data.length = 0 then
    let f : Font := { style := "normal", size := 11, color := cfg.colorSlateGray }
    ({ st0 with font := f },
      e0 ++ [Ev.text "No data available." cfg.margins.left st0.currentY f "left"])
  else
    let displayData := data.take cfg.maxRows
    let displayHeaders := headers.take 6
    let colWidth := st0.contentWidth / (displayHeaders.length : ℚ)
    let rowHeight := if cfg.rowHeightCfg = 0 then 20 else cfg.rowHeightCfg
    let eHdrBg := Ev.rect cfg.margins.left st0.currentY st0.contentWidth rowHeight
      "F" cfg.headerBackground
    let hdrFont : Font := tableHeaderFont
    let eHdrs := displayHeaders.enum.map (fun p =>
      Ev.text ((p.2).take 15) (cfg.margins.left + (p.1 : ℚ) * colWidth + 4)
        (st0.currentY + 14) hdrFont "left")
    let st1 := { st0 with currentY := st0.currentY + rowHeight, font := hdrFont }
    let rows := drawTableRows displayHeaders colWidth rowHeight displayData 0 st1
    let st2 := rows.1
    let tableHeight := ((displayData.length : ℚ) + 1) * rowHeight
    let eBorder := Ev.rect cfg.margins.left (st2.currentY - tableHeight) st2.contentWidth
      tableHeight "S" cfg.borderColor
    if data.length > cfg.maxRows then
      let stN := { st2 with currentY := st2.currentY + 10 }
      let nFont : Font := noticeFont
      let eNote := Ev.text
        ("Showing first " ++ toString cfg.maxRows ++ " of " ++ toString data.length
          ++ " records.")
        cfg.margins.left stN.currentY nFont "left"
      ({ stN with font := nFont }, e0 ++ [eHdrBg] ++ eHdrs ++ rows.2 ++ [eBorder, eNote])
    else (st2, e0 ++ [eHdrBg] ++ eHdrs ++ rows.2 ++ [eBorder])

/-- One page's worth of `_drawFooter`: `setPage(i)`, the footer rule, and
the three footer texts; `today` is `new Date().toLocaleDateString()`. -/
def drawFooterPage (today : String) (st : DocState) (i : ℕ) : List Ev :=
  let cfg := PDF_REPORT_CONFIG
  let footerY := st.pageHeight - cfg.margins.bottom + 10
  let f : Font := { style := "normal", size := 8, color := cfg.colorSlateGray }
  [Ev.setPage i,
   Ev.line cfg.margins.left footerY (st.pageWidth - cfg.margins.right) footerY
     cfg.colorTableBorder 1,
   Ev.text "Generated by CHEM•VIZ" cfg.margins.left (footerY + 15) f "left",
   Ev.text ("Page " ++ toString i ++ " of " ++ toString st.pageCount)
     (st.pageWidth / 2) (footerY + 15) f "center",
   Ev.text today (st.pageWidth - cfg.margins.right) (footerY + 15) f "right"]

/-- `_drawFooter`: the per-page footer for pages `1..pageCount`. -/
def drawFooter (today : String) (st : DocState) : List Ev :=
  ((List.range st.pageCount).map (fun k => drawFooterPage today st (k + 1))).flatten

/-- `APIError` from `api.js`: every rejection of the fetch wrapper is an
`APIError` (non-OK HTTP status, or a network error mapped to status 0). -/
structure APIError where
  message : String
  status : ℕ
deriving DecidableEq, Repr

/-- What `generate` can throw: the spec's `FetchFailure` (a provider call
rejected with an `APIError`), or a JavaScript runtime `TypeError` escaping
the layout code. -/
inductive GenError where
  | fetchFailure (e : APIError)
  | typeError (msg : String)
deriving DecidableEq, Repr

/-- Result shape of `getAnalysis` in `api.js`. -/
structure AnalysisData where
  chartData : ChartData
deriving DecidableEq, Repr

/-- jsPDF A4 portrait page width in points. -/
def a4Width : ℚ := 59528 / 100

/-- jsPDF A4 portrait page height in points. -/
def a4Height : ℚ := 84189 / 100

/-- `PDFReportGenerator.generate(datasetId)`: the three provider results
(as normalized by `api.js`) are parameters; `Promise.all` rejects with a
provider's `APIError` when any call rejects (modelled in argument order,
since rejection timing is not modelled), otherwise the layout pipeline runs
and the byte payload is the finished drawing trace. -/
def generate (now today : String) (rDataset : Except APIError DatasetInfo)
    (rSummary : Except APIError SummaryData)
    (rAnalysis : Except APIError AnalysisData) : Except GenError (List Ev) :=
  match rDataset, rSummary, rAnalysis with
  | Except.ok info, Except.ok summary, Except.ok analysis =>
    let cfg := PDF_REPORT_CONFIG
    let st0 : DocState :=
      { currentY := cfg.margins.top, pageWidth := a4Width, pageHeight := a4Height,
        contentWidth := a4Width - cfg.margins.left - cfg.margins.right,
        font := { style := "normal", size := 16, color := "#000000" }, pageCount := 1 }
    let r1 := drawHeader st0
    let r2 := drawMetadata now info summary r1.1
    let r3 := drawSummarySection summary.kpis r2.1
    match drawChartsSection analysis.chartData r3.1 with
    | Except.error m => Except.error (GenError.typeError m)
    | Except.ok r4 =>
      let r5 := addNewPage r4.1
      let r6 := drawDataTable summary.previewData summary.previewHeaders r5.1
      let e7 := drawFooter today r6.1
      Except.ok (r1.2 ++ r2.2 ++ r3.2 ++ r4.2 ++ r5.2 ++ r6.2 ++ e7)
  | Except.error e, _, _ => Except.error (GenError.fetchFailure e)
  | _, Except.error e, _ => Except.error (GenError.fetchFailure e)
  | _, _, Except.error e => Except.error (GenError.fetchFailure e)

/-! ### Trace observations -/

/-- Strings of all text events of a trace. -/
def textStrs : List Ev → List String
  | [] => []
  | Ev.text s _ _ _ _ :: t => s :: textStrs t
  | _ :: t => textStrs t

/-- Strings of the text events drawn with font `f`. -/
def textsWithFont (f : Font) : List Ev → List String
  | [] => []
  | Ev.text s _ _ g _ :: t =>
    if g = f then s :: textsWithFont f t else textsWithFont f t
  | _ :: t => textsWithFont f t

/-- y-coordinates of the texts with string `s` drawn at font size `sz`. -/
def textYsAt (s : String) (sz : ℚ) : List Ev → List ℚ
  | [] => []
  | Ev.text t _ y g _ :: rest =>
    if t = s ∧ g.size = sz then y :: textYsAt s sz rest else textYsAt s sz rest
  | _ :: rest => textYsAt s sz rest

/-- Heights of the filled rounded rectangles of a trace (chart bars are the
only filled rounded rectangles the generator draws). -/
def barHeights : List Ev → List ℚ
  | [] => []
  | Ev.rrect _ _ _ h _ _ paint _ :: t =>
    if paint = "F" then h :: barHeights t else barHeights t
  | _ :: t => barHeights t

/-- Number of zebra row fills (filled plain rectangles in the zebra color). -/
def zebraCount : List Ev → ℕ
  | [] => 0
  | Ev.rect _ _ _ _ paint c :: t =>
    (if paint = "F" ∧ c = "#FAFAFA" then 1 else 0) + zebraCount t
  | _ :: t => zebraCount t

/-- Number of axis lines (`doc.line`) on a trace. -/
def lineCount : List Ev → ℕ
  | [] => 0
  | Ev.line _ _ _ _ _ _ :: t => 1 + lineCount t
  | _ :: t => lineCount t

theorem textsWithFont_append (f : Font) (a b : List Ev) :
    textsWithFont f (a ++ b) = textsWithFont f a ++ textsWithFont f b := by
  induction a with
  | nil => rfl
  | cons e t ih => cases e <;> simp only [List.cons_append, textsWithFont] <;>
      first
        | exact ih
        | (split <;> simp [ih])

theorem textYsAt_append (s : String) (sz : ℚ) (a b : List Ev) :
    textYsAt s sz (a ++ b) = textYsAt s sz a ++ textYsAt s sz b := by
  induction a with
  | nil => rfl
  | cons e t ih => cases e <;> simp only [List.cons_append, textYsAt] <;>
      first
        | exact ih
        | (split <;> simp [ih])

theorem barHeights_append (a b : List Ev) :
    barHeights (a ++ b) = barHeights a ++ barHeights b := by
  induction a with
  | nil => rfl
  | cons e t ih => cases e <;> simp only [List.cons_append, barHeights] <;>
      first
        | exact ih
        | (split <;> simp [ih])

theorem zebraCount_append (a b : List Ev) :
    zebraCount (a ++ b) = zebraCount a + zebraCount b := by
  induction a with
  | nil => simp [zebraCount]
  | cons e t ih => cases e <;> simp [zebraCount, ih] <;> omega

/-! ### Row-loop lemmas -/

theorem textsWithFont_map_self {α : Type} (f : Font) (g : α → String)
    (x y : α → ℚ) (al : String) (l : List α) :
    textsWithFont f (l.map (fun a => Ev.text (g a) (x a) (y a) f al)) = l.map g := by
  induction l with
  | nil => rfl
  | cons a t ih => simpa [textsWithFont, List.filterMap_cons] using ih

theorem textsWithFont_map_other {α : Type} (f g0 : Font) (h : ¬(g0 = f))
    (g : α → String) (x y : α → ℚ) (al : String) (l : List α) :
    textsWithFont f (l.map (fun a => Ev.text (g a) (x a) (y a) g0 al)) = [] := by
  induction l with
  | nil => rfl
  | cons a t ih => simpa [textsWithFont, List.filterMap_cons, h] using ih

/-- Closed form of one iteration of the data-row loop: the zebra fill (odd
indices), the row's cell texts, and — exactly when the advanced cursor
passed `pageHeight - bottom - 50` — the page break with the re-drawn page
header; the state advances by `rowHeight` or is reset below the fresh
page's header. -/
theorem drawTableRow_eq (hs : List String) (cw rh : ℚ) (row : Row) (idx : ℕ)
    (st : DocState) :
    drawTableRow hs cw rh row idx st
      = (if st.currentY + rh > st.pageHeight - 72 - 50 then
           { currentY := 124, pageWidth := st.pageWidth, pageHeight := st.pageHeight,
             contentWidth := st.contentWidth, font := pageTitleFont,
             pageCount := st.pageCount + 1 }
         else { st with currentY := st.currentY + rh, font := cellFont },
         (if idx % 2 = 1 then [Ev.rect 56 st.currentY st.contentWidth rh "F" "#FAFAFA"]
          else [])
           ++ hs.enum.map (fun p => Ev.text (tableCellText row p.2 p.1)
                (56 + (p.1 : ℚ) * cw + 4) (st.currentY + 14) cellFont "left")
           ++ (if st.currentY + rh > st.pageHeight - 72 - 50 then
                 [Ev.newPage,
                  Ev.text "CHEM•VIZ Analysis Report" (st.pageWidth / 2) 72 pageTitleFont
                    "center",
                  Ev.line 56 108 (st.pageWidth - 56) 108 "#E5E7EB" 1]
               else [])) := by
  simp only [drawTableRow, addNewPage, drawHeader, cellFont, pageTitleFont,
    PDF_REPORT_CONFIG]
  by_cases hz : idx % 2 = 1 <;>
    by_cases hb : st.currentY + rh > st.pageHeight - 72 - 50 <;>
      simp [hz, hb] <;> norm_num

theorem textsWithFont_cellFont_drawTableRow (hs : List String) (cw rh : ℚ)
    (row : Row) (idx : ℕ) (st : DocState) :
    textsWithFont cellFont (drawTableRow hs cw rh row idx st).2
      = hs.enum.map (fun p => tableCellText row p.2 p.1) := by
  rw [drawTableRow_eq]
  by_cases hz : idx % 2 = 1 <;>
    by_cases hb : st.currentY + rh > st.pageHeight - 72 - 50 <;>
      simp [hz, hb, textsWithFont_append, textsWithFont_map_self, textsWithFont,
        cellFont, pageTitleFont]

theorem textsWithFont_other_drawTableRow (f : Font) (hf1 : ¬(cellFont = f))
    (hf2 : ¬(pageTitleFont = f)) (hs : List String) (cw rh : ℚ)
    (row : Row) (idx : ℕ) (st : DocState) :
    textsWithFont f (drawTableRow hs cw rh row idx st).2 = [] := by
  rw [drawTableRow_eq]
  by_cases hz : idx % 2 = 1 <;>
    by_cases hb : st.currentY + rh > st.pageHeight - 72 - 50 <;>
      simp [hz, hb, textsWithFont_append, textsWithFont_map_other _ _ hf1, textsWithFont,
        hf1, hf2]

theorem zebraCount_map_text {α : Type} (g : α → String) (x y : α → ℚ) (f : Font)
    (al : String) (l : List α) :
    zebraCount (l.map (fun a => Ev.text (g a) (x a) (y a) f al)) = 0 := by
  induction l with
  | nil => rfl
  | cons a t ih => simpa [zebraCount] using ih

theorem zebraCount_drawTableRow (hs : List String) (cw rh : ℚ)
    (row : Row) (idx : ℕ) (st : DocState) :
    zebraCount (drawTableRow hs cw rh row idx st).2
      = if idx % 2 = 1 then 1 else 0 := by
  rw [drawTableRow_eq]
  by_cases hz : idx % 2 = 1 <;>
    by_cases hb : st.currentY + rh > st.pageHeight - 72 - 50 <;>
      simp [hz, hb, zebraCount_append, zebraCount, zebraCount_map_text]

theorem textsWithFont_cellFont_drawTableRows (hs : List String) (cw rh : ℚ)
    (rows : List Row) : ∀ (idx : ℕ) (st : DocState),
    textsWithFont cellFont (drawTableRows hs cw rh rows idx st).2
      = rows.flatMap (fun row => hs.enum.map (fun p => tableCellText row p.2 p.1)) := by
  induction rows with
  | nil => intro idx st; rfl
  | cons row rest ih =>
    intro idx st
    simp only [drawTableRows]
    rw [textsWithFont_append, textsWithFont_cellFont_drawTableRow, ih]
    simp

theorem textsWithFont_other_drawTableRows (f : Font) (hf1 : ¬(cellFont = f))
    (hf2 : ¬(pageTitleFont = f)) (hs : List String) (cw rh : ℚ)
    (rows : List Row) : ∀ (idx : ℕ) (st : DocState),
    textsWithFont f (drawTableRows hs cw rh rows idx st).2 = [] := by
  induction rows with
  | nil => intro idx st; rfl
  | cons row rest ih =>
    intro idx st
    simp only [drawTableRows]
    rw [textsWithFont_append, textsWithFont_other_drawTableRow f hf1 hf2, ih]
    rfl

theorem zebraCount_drawTableRows (hs : List String) (cw rh : ℚ)
    (rows : List Row) : ∀ (idx : ℕ) (st : DocState),
    zebraCount (drawTableRows hs cw rh rows idx st).2
      = (idx + rows.length) / 2 - idx / 2 := by
  induction rows with
  | nil => intro idx st; simp [drawTableRows, zebraCount]
  | cons row rest ih =>
    intro idx st
    simp only [drawTableRows]
    rw [zebraCount_append, zebraCount_drawTableRow, ih]
    by_cases hz : idx % 2 = 1 <;> simp [hz, List.length_cons] <;> omega

theorem length_flatMap_const_inner {α β : Type} (l : List α) (g : α → List β) (k : ℕ)
    (h : ∀ a, (g a).length = k) : (l.flatMap g).length = l.length * k := by
  induction l with
  | nil => simp
  | cons a t ih => simp [List.flatMap_cons, h, ih, Nat.succ_mul, Nat.add_comm]

/-- Closed form of `_drawSectionTitle`. -/
theorem drawSectionTitle_eq (t : String) (st : DocState) :
    drawSectionTitle t st
      = ({ st with
           currentY := st.currentY + 8 + 16,
           font := sectionTitleFont },
         [Ev.text t 56 st.currentY sectionTitleFont "left",
          Ev.line 56 (st.currentY + 8) (st.pageWidth - 56) (st.currentY + 8)
            "#E5E7EB" (1/2)]) := rfl

/-! ### Claims -/

/-- A concrete document state used by the concrete counterexamples: cursor
at 100, integral page dimensions close to A4 (so that concrete traces
evaluate inside the kernel; no claim depends on the fractional part of the
A4 point sizes). -/
def stDemo : DocState :=
  { currentY := 100, pageWidth := 595, pageHeight := 842, contentWidth := 483,
    font := { style := "normal", size := 16, color := "#000000" }, pageCount := 1 }

/-- C2, counterexample: in the PDF data table (`_drawDataTable`), a cell
whose value is `null` for its row/header combination renders as the empty
string, not as the em-dash placeholder the claim states. -/
theorem C2_counterexample :
    tableCellText [("name", JCell.null)] "name" 0 = "" ∧
    tableCellText [("name", JCell.null)] "name" 0 ≠ "—" := by
  constructor
  · rfl
  · decide

/-- C2, amended: for every row and header, a cell value that is
`null`/missing (under both the header and the positional fallback lookup)
renders in the PDF table as the empty string — never `"null"`, never
`"undefined"`, and never an exception (the function is total) — while the
em-dash placeholder is what the on-screen `DataPreviewTable` of
`SummaryScreen.jsx` renders for the same cell. -/
theorem C2_missing_cell_empty_in_pdf_emdash_on_screen
    (row : Row) (header : String) (colIdx : ℕ)
    (h1 : jsGet row header = JCell.null)
    (h2 : jsGet row (toString colIdx) = JCell.null) :
    tableCellText row header colIdx = "" ∧
    tableCellText row header colIdx ≠ "null" ∧
    tableCellText row header colIdx ≠ "undefined" ∧
    previewCellText row header colIdx = "—" := by
  simp [tableCellText, previewCellText, jsQQ, h1, h2, jsCellString]
  decide

/-- C2, witness for the amended theorem at a concrete cell. -/
theorem C2_missing_cell_witness :
    tableCellText [("x", JCell.null)] "x" 5 = "" ∧
    tableCellText [("x", JCell.null)] "x" 5 ≠ "null" ∧
    tableCellText [("x", JCell.null)] "x" 5 ≠ "undefined" ∧
    previewCellText [("x", JCell.null)] "x" 5 = "—" :=
  C2_missing_cell_empty_in_pdf_emdash_on_screen [("x", JCell.null)] "x" 5 rfl rfl

/-- C5, counterexample: metadata rendering never reads a `validationStatus`
field (none reaches the generator), yet for an upload with a positive
equipment count the "Status" entry displays `"Valid"`, not the `"Unknown"`
the claim requires for every upload without a `validationStatus`. -/
theorem C5_counterexample :
    textsWithFont metaValueFont
      (drawMetadata "2026-01-01" ⟨some "data.csv", some 10⟩
        ⟨⟨5, 0, 0, "Pump"⟩, [], []⟩ stDemo).2
      = ["2026-01-01", "data.csv", "10", "Valid"] ∧
    ("Valid" : String) ≠ "Unknown" := by
  constructor
  · rfl
  · decide

/-- C5, amended: the four metadata values drawn by `_drawMetadata` are the
generation time, the filename (defaulting to "Unknown" when absent or
empty), the row count (defaulting to 0), and a "Status" value that ignores
any `validationStatus` and displays `"Valid"` exactly when
`kpis.totalEquipment > 0` and `"Unknown"` otherwise; rendering is total and
never fails. -/
theorem C5_status_ignores_validationStatus (now : String) (info : DatasetInfo)
    (summary : SummaryData) (st : DocState) :
    textsWithFont metaValueFont (drawMetadata now info summary st).2
      = [now, jsOrStr info.original_filename "Unknown",
         toString (info.row_count.getD 0),
         if summary.kpis.totalEquipment > 0 then "Valid" else "Unknown"] := by
  rfl

/-- C4: at most `maxRows` (= 20) row bands are drawn — exactly
`min 20 data.length` rows, observed as that many cell texts per retained
column and `min 20 data.length / 2` zebra fills — and the italic truncation
notice `"Showing first 20 of <N> records."` is drawn exactly when
`data.length > maxRows` (so never when `data.length ≤ 20`). -/
theorem C4_row_cap_and_truncation_notice (data : List Row) (headers : List String)
    (st : DocState) :
    (textsWithFont cellFont (drawDataTable data headers st).2).length
        = min PDF_REPORT_CONFIG.maxRows data.length * (headers.take 6).length ∧
    zebraCount (drawDataTable data headers st).2
        = min PDF_REPORT_CONFIG.maxRows data.length / 2 ∧
    textsWithFont noticeFont (drawDataTable data headers st).2
      = (if PDF_REPORT_CONFIG.maxRows < data.length then
           ["Showing first " ++ toString PDF_REPORT_CONFIG.maxRows ++ " of "
             ++ toString data.length ++ " records."]
         else []) := by
  by_cases hd : data.length = 0
  · refine ⟨?_, ?_, ?_⟩ <;>
      simp [drawDataTable, drawSectionTitle_eq, hd, textsWithFont, zebraCount,
        PDF_REPORT_CONFIG, cellFont, noticeFont, sectionTitleFont]
  · have hlen : ((data.take 20).flatMap
        (fun row => (headers.take 6).enum.map
          (fun p => tableCellText row p.2 p.1))).length
        = min 20 data.length * min 6 headers.length := by
      rw [length_flatMap_const_inner _ _ ((headers.take 6).length)
        (fun row => by simp)]
      simp [List.length_take]
    refine ⟨?_, ?_, ?_⟩ <;>
      by_cases hn : 20 < data.length <;>
        simp [drawDataTable, drawSectionTitle_eq, hd, hn, PDF_REPORT_CONFIG,
          textsWithFont_append, zebraCount_append, hlen,
          textsWithFont_cellFont_drawTableRows, zebraCount_drawTableRows,
          textsWithFont_other_drawTableRows noticeFont (by decide) (by decide),
          textsWithFont_map_other _ _ (by decide : ¬(tableHeaderFont = cellFont)),
          textsWithFont_map_other _ _ (by decide : ¬(tableHeaderFont = noticeFont)),
          (by decide : ¬(sectionTitleFont = cellFont)),
          (by decide : ¬(sectionTitleFont = noticeFont)),
          (by decide : ¬(noticeFont = cellFont)),
          textsWithFont, zebraCount, zebraCount_map_text,
          List.length_take] <;>
        first
          | omega
          | rfl

theorem map_enum_snd {α β : Type} (l : List α) (f : α → β) :
    l.enum.map (fun p => f p.2) = l.map f := by
  conv_rhs => rw [← List.enum_map_snd l]
  rw [List.map_map]
  rfl

theorem map_enum_snd_take (l : List String) (n : ℕ) :
    l.enum.map (fun p => p.2.take n) = l.map (fun h => h.take n) :=
  map_enum_snd l (fun h => h.take n)

/-- C6: `_drawDataTable` retains only the first six headers — its entire
output coincides with its output on `headers.take 6` (headers beyond the
sixth are dropped, and no lookup is ever made for them), the drawn
header-row texts are exactly the retained headers truncated to 15
characters, and every drawn cell text is produced from a retained
header/column position only. -/
theorem C6_column_cap (data : List Row) (headers : List String) (st : DocState)
    (hd : ¬(data.length = 0)) :
    drawDataTable data headers st = drawDataTable data (headers.take 6) st ∧
    textsWithFont tableHeaderFont (drawDataTable data headers st).2
      = (headers.take 6).map (fun h => h.take 15) ∧
    textsWithFont cellFont (drawDataTable data headers st).2
      = (data.take PDF_REPORT_CONFIG.maxRows).flatMap
          (fun row => (headers.take 6).enum.map
            (fun p => tableCellText row p.2 p.1)) := by
  refine ⟨?_, ?_, ?_⟩
  · simp [drawDataTable, List.take_take]
  · by_cases hn : 20 < data.length <;>
      simp [drawDataTable, hd, hn, drawSectionTitle_eq, PDF_REPORT_CONFIG,
        textsWithFont_append, textsWithFont_map_self, map_enum_snd_take,
        textsWithFont_other_drawTableRows tableHeaderFont (by decide) (by decide),
        (by decide : ¬(sectionTitleFont = tableHeaderFont)),
        (by decide : ¬(noticeFont = tableHeaderFont)),
        textsWithFont]
  · by_cases hn : 20 < data.length <;>
      simp [drawDataTable, hd, hn, drawSectionTitle_eq, PDF_REPORT_CONFIG,
        textsWithFont_append, textsWithFont_cellFont_drawTableRows,
        textsWithFont_map_other _ _ (by decide : ¬(tableHeaderFont = cellFont)),
        (by decide : ¬(sectionTitleFont = cellFont)),
        (by decide : ¬(noticeFont = cellFont)),
        textsWithFont]

/-- C6, witness: a concrete 1-row table with 7 headers. -/
theorem C6_column_cap_witness :
    drawDataTable [[("g", JCell.str "v")]]
        ["a", "b", "c", "d", "e", "f", "g"] stDemo
      = drawDataTable [[("g", JCell.str "v")]]
          (["a", "b", "c", "d", "e", "f", "g"].take 6) stDemo ∧
    textsWithFont tableHeaderFont
        (drawDataTable [[("g", JCell.str "v")]]
          ["a", "b", "c", "d", "e", "f", "g"] stDemo).2
      = (["a", "b", "c", "d", "e", "f", "g"].take 6).map (fun h => h.take 15) ∧
    textsWithFont cellFont
        (drawDataTable [[("g", JCell.str "v")]]
          ["a", "b", "c", "d", "e", "f", "g"] stDemo).2
      = ([[("g", JCell.str "v")]].take PDF_REPORT_CONFIG.maxRows).flatMap
          (fun row => (["a", "b", "c", "d", "e", "f", "g"].take 6).enum.map
            (fun p => tableCellText row p.2 p.1)) :=
  C6_column_cap [[("g", JCell.str "v")]] ["a", "b", "c", "d", "e", "f", "g"]
    stDemo (by decide)

/-- C7: in the data-row loop, a page break is forced after drawing a row
exactly when the advanced cursor (the next row's start) passed the
bottom-margin threshold `pageHeight - bottom - 50`; the break re-draws the
page-header section (the report title is emitted again, in the page-title
font) but never the table's own header row (no bold-9 header text is ever
emitted by a row iteration), so data rows resume without repeated column
titles. -/
theorem C7_midtable_page_break (hs : List String) (cw rh : ℚ) (row : Row)
    (idx : ℕ) (st : DocState) :
    ((Ev.newPage ∈ (drawTableRow hs cw rh row idx st).2)
        ↔ st.currentY + rh
            > st.pageHeight - PDF_REPORT_CONFIG.margins.bottom - 50) ∧
    textsWithFont pageTitleFont (drawTableRow hs cw rh row idx st).2
      = (if st.currentY + rh
            > st.pageHeight - PDF_REPORT_CONFIG.margins.bottom - 50
         then [PDF_REPORT_CONFIG.headerTitleText] else []) ∧
    textsWithFont tableHeaderFont (drawTableRow hs cw rh row idx st).2 = [] := by
  rw [drawTableRow_eq]
  by_cases hb : st.currentY + rh > st.pageHeight - 72 - 50 <;>
    by_cases hz : idx % 2 = 1 <;>
      simp [hb, hz, PDF_REPORT_CONFIG, textsWithFont_append, textsWithFont,
        textsWithFont_map_other _ _ (by decide : ¬(cellFont = pageTitleFont)),
        textsWithFont_map_other _ _ (by decide : ¬(cellFont = tableHeaderFont)),
        (by decide : ¬(pageTitleFont = tableHeaderFont)),
        List.mem_map]

theorem barHeights_flatMap {α : Type} (h x y w u v : α → ℚ) (sf : α → String)
    (c al : String) (g : Font) (l : List α) :
    barHeights (l.flatMap (fun a =>
      [Ev.rrect (x a) (y a) (w a) (h a) 2 2 "F" c,
       Ev.text (sf a) (u a) (v a) g al])) = l.map h := by
  induction l with
  | nil => rfl
  | cons a t ih => simpa [barHeights] using ih

/-- The bar heights `_drawBarChart` emits are exactly
`(value / maxValue) * (height - 30)`, one per value, in order. -/
theorem barHeights_drawBarChart (labels : List String) (values : List ℚ)
    (color : String) (width height : ℚ) (startX : Option ℚ) (st : DocState)
    (hv : ¬(values.length = 0)) :
    barHeights (drawBarChart labels values color width height startX st).2
      = values.map (fun v => v / maxOf values * (height - 30)) := by
  simp only [drawBarChart]
  rw [if_neg hv]
  simp only [barHeights_append, barHeights_flatMap, barHeights]
  rw [List.append_nil]
  exact map_enum_snd values (fun v => v / maxOf values * (height - 30))

theorem maxOf_mem : ∀ (l : List ℚ), ¬(l = []) → maxOf l ∈ l
  | [x], _ => by simp [maxOf]
  | x :: y :: t, _ => by
    simp only [maxOf]
    rcases le_total x (maxOf (y :: t)) with h | h
    · have hm := maxOf_mem (y :: t) (by simp)
      rw [max_eq_right h]
      exact List.mem_cons_of_mem x hm
    · rw [max_eq_left h]
      exact List.mem_cons_self x (y :: t)

theorem le_maxOf : ∀ (l : List ℚ), ∀ v ∈ l, v ≤ maxOf l
  | [], v => by simp
  | [x], v => by
    intro hv
    simp [maxOf] at hv ⊢
    exact le_of_eq hv
  | x :: y :: t, v => by
    intro hv
    simp only [maxOf]
    rcases List.mem_cons.mp hv with h | h
    · exact h ▸ le_max_left _ _
    · exact le_trans (le_maxOf (y :: t) v h) (le_max_right _ _)

/-- C10: for a non-empty values sequence, `_drawBarChart` computes every bar
height as `(value / maxValue) * (height - 30)` with `maxValue` the maximum
of the sequence (it is attained and bounds every value); under the
precondition `maxValue ≠ 0` the division is exact/well-defined — each
height `h` satisfies `h * maxValue = value * (height - 30)` — so no
division-by-zero can occur on this path. -/
theorem C10_bar_heights_welldefined (labels : List String) (values : List ℚ)
    (color : String) (width height : ℚ) (startX : Option ℚ) (st : DocState)
    (hv : ¬(values = [])) (hm : ¬(maxOf values = 0)) :
    barHeights (drawBarChart labels values color width height startX st).2
        = values.map (fun v => v / maxOf values * (height - 30)) ∧
    maxOf values ∈ values ∧
    (∀ v ∈ values, v ≤ maxOf values) ∧
    (∀ v ∈ values,
      (v / maxOf values * (height - 30)) * maxOf values = v * (height - 30)) := by
  refine ⟨barHeights_drawBarChart labels values color width height startX st
      (by simpa using hv),
    maxOf_mem values hv, le_maxOf values, ?_⟩
  intro v hvv
  field_simp

/-- C10, witness at a concrete two-bar chart. -/
theorem C10_bar_heights_witness :
    barHeights (drawBarChart ["a", "b"] [2, 1] "#EF4444" 200 120 none stDemo).2
        = [2, 1].map (fun v => v / maxOf [2, 1] * ((120 : ℚ) - 30)) ∧
    maxOf [2, 1] ∈ [(2 : ℚ), 1] ∧
    (∀ v ∈ [(2 : ℚ), 1], v ≤ maxOf [2, 1]) ∧
    (∀ v ∈ [(2 : ℚ), 1],
      (v / maxOf [2, 1] * ((120 : ℚ) - 30)) * maxOf [2, 1] = v * ((120 : ℚ) - 30)) :=
  C10_bar_heights_welldefined ["a", "b"] [2, 1] "#EF4444" 200 120 none stDemo
    (by simp) (by norm_num [maxOf])

/-- Closed form of `_drawSubsectionTitle`. -/
theorem drawSubsectionTitle_eq (t : String) (st : DocState) :
    drawSubsectionTitle t st
      = ({ st with currentY := st.currentY + 16, font := subsectionTitleFont },
         [Ev.text t 56 st.currentY subsectionTitleFont "left"]) := rfl

/-- C9: the temperature-profile series is drawn from its first ten entries
only — the charts section's entire output is unchanged when the temperature
series is sliced to `take 10` beforehand, so entries past the tenth never
affect the output — while, by contrast, an 11-entry pressure series draws
all 11 bars (and its 10-sliced variant draws 10). -/
theorem C9_temperature_sliced_to_ten (cd : ChartData) (st : DocState) :
    (drawChartsSection cd st
      = drawChartsSection
          { cd with temperatureVsEquipment :=
              { labels := cd.temperatureVsEquipment.labels.map (fun ls => ls.take 10),
                data := cd.temperatureVsEquipment.data.map (fun ds => ds.take 10) } }
          st) ∧
    ((drawChartsSection
        ⟨⟨none, none⟩, ⟨none, none⟩,
         ⟨some ["a", "b", "c", "d", "e", "f", "g", "h", "i", "j", "k"],
          some [1, 2, 3, 4, 5, 6, 7, 8, 9, 10, 11]⟩⟩ stDemo).toOption.map
        (fun p => (barHeights p.2).length) = some 11) ∧
    ((drawChartsSection
        ⟨⟨none, none⟩, ⟨none, none⟩,
         ⟨some ["a", "b", "c", "d", "e", "f", "g", "h", "i", "j"],
          some [1, 2, 3, 4, 5, 6, 7, 8, 9, 10]⟩⟩ stDemo).toOption.map
        (fun p => (barHeights p.2).length) = some 10) := by
  refine ⟨?_, ?_, ?_⟩
  case refine_2 =>
    norm_num [drawChartsSection, drawSectionTitle_eq, stDemo, drawBarChart,
      PDF_REPORT_CONFIG, maxOf]
    refine ⟨_, _, rfl, ?_⟩
    simp [barHeights_append, barHeights_flatMap, barHeights]
  case refine_3 =>
    norm_num [drawChartsSection, drawSectionTitle_eq, stDemo, drawBarChart,
      PDF_REPORT_CONFIG, maxOf]
    refine ⟨_, _, rfl, ?_⟩
    simp [barHeights_append, barHeights_flatMap, barHeights]
  case refine_1 => ?_
  obtain ⟨⟨el, ed⟩, ⟨tl, td⟩, ⟨pl, pd⟩⟩ := cd
  cases td with
  | none => rfl
  | some ds =>
    by_cases hds : ds.length = 0
    · obtain rfl : ds = [] := List.length_eq_zero.mp hds
      rfl
    · have h1 : ds.length > 0 := Nat.pos_of_ne_zero hds
      have h2 : (ds.take 10).length > 0 := by
        simp only [List.length_take]
        omega
      cases tl with
      | none => simp [drawChartsSection, h1, h2]
      | some ls => simp [drawChartsSection, h1, h2, List.take_take]

/-- C8 (amended): an empty chart series (labels and data both empty, per
the spec's `labels.length == values.length` invariant) is skipped entirely
by `_drawChartsSection` — the output is identical to that for an absent
series, so there is no subsection title, no bars, no axis lines, no crash,
and no cursor advance attributable to that chart; when all three series
are empty (and the cursor is above the mid-section page-break threshold)
the section contributes exactly its own section title and the configured
bottom margin. -/
theorem C8_empty_series_skipped (cd : ChartData) (st : DocState)
    (hbrk : ¬(st.currentY + 8 + 16 > st.pageHeight - 250)) :
    (drawChartsSection { cd with temperatureVsEquipment :=
        ⟨some [], some []⟩ } st
      = drawChartsSection { cd with temperatureVsEquipment := ⟨none, none⟩ } st) ∧
    (drawChartsSection { cd with equipmentTypes := ⟨some [], some []⟩ } st
      = drawChartsSection { cd with equipmentTypes := ⟨none, none⟩ } st) ∧
    (drawChartsSection { cd with pressureDistribution := ⟨some [], some []⟩ } st
      = drawChartsSection { cd with pressureDistribution := ⟨none, none⟩ } st) ∧
    (drawChartsSection
        ⟨⟨some [], some []⟩, ⟨some [], some []⟩, ⟨some [], some []⟩⟩ st
      = Except.ok
          ({ st with currentY := st.currentY + 8 + 16 + 24,
                     font := sectionTitleFont },
           [Ev.text "Data Visualization" 56 st.currentY sectionTitleFont "left",
            Ev.line 56 (st.currentY + 8) (st.pageWidth - 56) (st.currentY + 8)
              "#E5E7EB" (1/2)])) := by
  refine ⟨rfl, rfl, rfl, ?_⟩
  simp [drawChartsSection, drawSectionTitle_eq, hbrk, PDF_REPORT_CONFIG]

/-- C8, witness for the amended theorem at a concrete state. -/
theorem C8_empty_series_witness :
    (drawChartsSection
        ⟨⟨some ["a"], some [1]⟩, ⟨some [], some []⟩, ⟨none, none⟩⟩ stDemo
      = drawChartsSection
          ⟨⟨some ["a"], some [1]⟩, ⟨none, none⟩, ⟨none, none⟩⟩ stDemo) ∧
    ∃ r, drawChartsSection
        ⟨⟨some [], some []⟩, ⟨some [], some []⟩, ⟨some [], some []⟩⟩ stDemo
      = Except.ok r :=
  ⟨(C8_empty_series_skipped
      ⟨⟨some ["a"], some [1]⟩, ⟨none, none⟩, ⟨none, none⟩⟩ stDemo
      (by norm_num [stDemo])).1,
   ⟨_, (C8_empty_series_skipped
      ⟨⟨none, none⟩, ⟨none, none⟩, ⟨none, none⟩⟩ stDemo
      (by norm_num [stDemo])).2.2.2⟩⟩

/-- C8, counterexample: with the temperature series empty (others absent),
the section draws no "Temperature Profile" subsection title at all and the
cursor ends at 148 = 100 + 24 (section title) + 24 (bottom margin); the
claim's expected advance of the subsection-title height (16) on top of that
would end at 164. -/
theorem C8_counterexample :
    (drawChartsSection ⟨⟨none, none⟩, ⟨some [], some []⟩, ⟨none, none⟩⟩
        stDemo).toOption.map
        (fun p => (p.1.currentY, textYsAt "Temperature Profile" 10 p.2))
      = some (148, []) ∧ ¬((148 : ℚ) = 164) := by
  constructor
  · norm_num [drawChartsSection, drawSectionTitle_eq, stDemo,
      PDF_REPORT_CONFIG]
    exact ⟨_, _, rfl, rfl, rfl⟩
  · norm_num

theorem textYsAt_flatMap_barpair {α : Type} (s : String) (sz : ℚ)
    (hsz : ¬((7 : ℚ) = sz)) (x y w h u v : α → ℚ) (sf : α → String)
    (c al fs : String) (l : List α) :
    textYsAt s sz (l.flatMap (fun a =>
      [Ev.rrect (x a) (y a) (w a) (h a) 2 2 "F" c,
       Ev.text (sf a) (u a) (v a)
         { style := fs, size := 7, color := "#6B7280" } al])) = [] := by
  induction l with
  | nil => rfl
  | cons a t ih => simpa [textYsAt, hsz] using ih

/-- C3, counterexample: with both side-by-side series non-empty, the left
("Temperature Profile") title is drawn at y = 124 but the right
("Pressure Distribution") title at y = 120: the fixed 140-point rewind
exceeds the 136 points (16pt title + 120pt chart) the left chart consumed,
so the right chart does not start at the same vertical offset. -/
theorem C3_counterexample :
    (drawChartsSection
        ⟨⟨none, none⟩, ⟨some ["a"], some [1]⟩, ⟨some ["b"], some [2]⟩⟩
        stDemo).toOption.map
        (fun p => (textYsAt "Temperature Profile" 10 p.2,
                   textYsAt "Pressure Distribution" 10 p.2))
      = some ([124], [120]) ∧ ¬((124 : ℚ) = 120) := by
  constructor
  · norm_num [drawChartsSection, drawSectionTitle_eq, drawSubsectionTitle_eq,
      stDemo, drawBarChart, PDF_REPORT_CONFIG, maxOf, textYsAt_append, textYsAt,
      textYsAt_flatMap_barpair "Temperature Profile" 10 (by norm_num),
      textYsAt_flatMap_barpair "Pressure Distribution" 10 (by norm_num),
      subsectionTitleFont, sectionTitleFont]
    exact ⟨_, _, rfl, by decide, by decide⟩
  · norm_num

/-- C3 (amended): when both side-by-side series are non-empty (and no page
break intervenes), the cursor is rewound by a fixed 140 points although the
left chart consumed only 136 (16pt subsection title + 120pt chart body):
the right chart's title is drawn 4 points above the left one (left at
y₀ = currentY + 24, right at y₀ - 4 = currentY + 20), and after both
charts plus the 24pt section bottom margin the cursor rests at
currentY + 180 = y₀ + 156, which is 4 points short of the left chart's
maximum extent plus that margin (y₀ + 136 + 24). -/
theorem C3_side_by_side_rewind (st : DocState) (tl pl : List String)
    (td pd : List ℚ) (htd : ¬(td = [])) (hpd : ¬(pd = []))
    (hbrk : ¬(st.currentY + 8 + 16 > st.pageHeight - 250)) :
    (drawChartsSection ⟨⟨none, none⟩, ⟨some tl, some td⟩, ⟨some pl, some pd⟩⟩
        st).toOption.map
        (fun p => (textYsAt "Temperature Profile" 10 p.2,
                   textYsAt "Pressure Distribution" 10 p.2,
                   p.1.currentY))
      = some ([st.currentY + 24], [st.currentY + 20], st.currentY + 180) := by
  have h1 : td.length > 0 := List.length_pos.mpr htd
  have h2 : ¬((td.take 10).length = 0) := by
    simp only [List.length_take]
    omega
  have h3 : pd.length > 0 := List.length_pos.mpr hpd
  have h4 : ¬(pd.length = 0) := by omega
  norm_num [drawChartsSection, drawSectionTitle_eq, drawSubsectionTitle_eq,
    drawBarChart, PDF_REPORT_CONFIG, h1, h2, h3, h4, hbrk, htd, hpd,
    textYsAt_append, textYsAt,
    textYsAt_flatMap_barpair "Temperature Profile" 10 (by norm_num),
    textYsAt_flatMap_barpair "Pressure Distribution" 10 (by norm_num),
    subsectionTitleFont, sectionTitleFont]
  refine ⟨_, _, rfl, ?_, ?_, ?_⟩
  · simp only [textYsAt_append, textYsAt,
      textYsAt_flatMap_barpair "Temperature Profile" 10 (by norm_num),
      textYsAt_flatMap_barpair "Pressure Distribution" 10 (by norm_num)]
    norm_num
    ring_nf
    simp
  · simp only [textYsAt_append, textYsAt,
      textYsAt_flatMap_barpair "Temperature Profile" 10 (by norm_num),
      textYsAt_flatMap_barpair "Pressure Distribution" 10 (by norm_num)]
    norm_num
    ring_nf
    simp
  · ring_nf

/-- C3, witness for the amended theorem at a concrete state and series. -/
theorem C3_side_by_side_witness :
    (drawChartsSection
        ⟨⟨none, none⟩, ⟨some ["t"], some [3]⟩, ⟨some ["p"], some [4]⟩⟩
        stDemo).toOption.map
        (fun p => (textYsAt "Temperature Profile" 10 p.2,
                   textYsAt "Pressure Distribution" 10 p.2,
                   p.1.currentY))
      = some ([stDemo.currentY + 24], [stDemo.currentY + 20],
          stDemo.currentY + 180) :=
  C3_side_by_side_rewind stDemo ["t"] ["p"] [3] [4] (by simp) (by simp)
    (by norm_num [stDemo])

/-- If the temperature series has data but its labels are absent,
`_drawChartsSection` throws (`labels.slice` on `undefined`). -/
theorem drawChartsSection_error_temp (cd : ChartData) (st : DocState)
    (h1 : cd.temperatureVsEquipment.labels = none)
    (h2 : (cd.temperatureVsEquipment.data.getD []).length > 0) :
    drawChartsSection cd st
      = Except.error
          "TypeError: Cannot read properties of undefined (reading 'slice')" := by
  simp [drawChartsSection, h1, h2]

/-- If each side-by-side series that passes its data guard also carries a
labels list, `_drawChartsSection` cannot throw. -/
theorem drawChartsSection_ok (cd : ChartData) (st : DocState)
    (h1 : (cd.temperatureVsEquipment.data.getD []).length > 0 →
      ∃ ls, cd.temperatureVsEquipment.labels = some ls)
    (h2 : (cd.pressureDistribution.data.getD []).length > 0 →
      ∃ ls, cd.pressureDistribution.labels = some ls) :
    ∃ p, drawChartsSection cd st = Except.ok p := by
  have noerr : ∀ e, ¬(drawChartsSection cd st = Except.error e) := by
    intro e he
    by_cases ht : (cd.temperatureVsEquipment.data.getD []).length > 0
    · obtain ⟨tls, htls⟩ := h1 ht
      by_cases hp : (cd.pressureDistribution.data.getD []).length > 0
      · obtain ⟨pls, hpls⟩ := h2 hp
        simp [drawChartsSection, ht, hp, htls, hpls] at he
      · simp [drawChartsSection, ht, hp, htls] at he
    · by_cases hp : (cd.pressureDistribution.data.getD []).length > 0
      · obtain ⟨pls, hpls⟩ := h2 hp
        simp [drawChartsSection, ht, hp, hpls] at he
      · simp [drawChartsSection, ht, hp] at he
  cases hres : drawChartsSection cd st with
  | error m => exact absurd hres (noerr m)
  | ok p => exact ⟨p, rfl⟩

/-- C1 (amended): `generate` rejects with a `FetchFailure` (carrying the
provider's `APIError`) whenever any of the three data-provider calls
rejects; when all three resolve and every side-by-side chart series whose
data passes its guard also carries a labels list, `generate` returns a byte
payload (the finished drawing trace).  Contrary to the claim, however, a
resolved analysis whose temperature or pressure series has data but no
labels aborts generation with a TypeError rather than a FetchFailure (see
the counterexample), so not every malformed field is absorbed by default
substitution. -/
theorem C1_fetchfailure_and_success (now today : String) :
    (∀ (e : APIError) (rs : Except APIError SummaryData)
        (ra : Except APIError AnalysisData),
      generate now today (Except.error e) rs ra
        = Except.error (GenError.fetchFailure e)) ∧
    (∀ (info : DatasetInfo) (e : APIError) (ra : Except APIError AnalysisData),
      generate now today (Except.ok info) (Except.error e) ra
        = Except.error (GenError.fetchFailure e)) ∧
    (∀ (info : DatasetInfo) (summary : SummaryData) (e : APIError),
      generate now today (Except.ok info) (Except.ok summary) (Except.error e)
        = Except.error (GenError.fetchFailure e)) ∧
    (∀ (info : DatasetInfo) (summary : SummaryData) (analysis : AnalysisData),
      ((analysis.chartData.temperatureVsEquipment.data.getD []).length > 0 →
        ∃ ls, analysis.chartData.temperatureVsEquipment.labels = some ls) →
      ((analysis.chartData.pressureDistribution.data.getD []).length > 0 →
        ∃ ls, analysis.chartData.pressureDistribution.labels = some ls) →
      ∃ evs, generate now today (Except.ok info) (Except.ok summary)
          (Except.ok analysis) = Except.ok evs) := by
  refine ⟨?_, ?_, ?_, ?_⟩
  · intro e rs ra
    cases rs <;> cases ra <;> rfl
  · intro info e ra
    cases ra <;> rfl
  · intro info summary e
    rfl
  · intro info summary analysis h1 h2
    obtain ⟨p, hp⟩ := drawChartsSection_ok analysis.chartData
      (drawSummarySection summary.kpis
        (drawMetadata now info summary
          (drawHeader
            { currentY := PDF_REPORT_CONFIG.margins.top, pageWidth := a4Width,
              pageHeight := a4Height,
              contentWidth := a4Width - PDF_REPORT_CONFIG.margins.left
                - PDF_REPORT_CONFIG.margins.right,
              font := { style := "normal", size := 16, color := "#000000" },
              pageCount := 1 }).1).1).1 h1 h2
    simp only [generate]
    rw [hp]
    exact ⟨_, rfl⟩

/-- C1, counterexample: all three provider calls resolve, yet `generate`
aborts with a TypeError — the resolved temperature series carries `data`
but no `labels`, so `labels.slice(0, 10)` throws — which is neither a
`FetchFailure` nor a byte payload, refuting both directions of the claim. -/
theorem C1_counterexample :
    generate "2026-01-01, 10:00" "2026-01-01"
        (Except.ok ⟨some "flow.csv", some 2⟩)
        (Except.ok ⟨⟨1, 0, 0, "Pump"⟩, [], []⟩)
        (Except.ok ⟨⟨⟨none, none⟩, ⟨none, some [1]⟩, ⟨none, none⟩⟩⟩)
      = Except.error (GenError.typeError
          "TypeError: Cannot read properties of undefined (reading 'slice')") := by
  simp only [generate]
  rw [drawChartsSection_error_temp _ _ rfl (by norm_num)]

/-- C1, witness: a concrete rejected call maps to a FetchFailure, and a
concrete fully-resolved well-formed triple yields a payload. -/
theorem C1_fetchfailure_witness :
    generate "n" "t" (Except.error ⟨"HTTP 500", 500⟩)
        (Except.ok ⟨⟨1, 0, 0, "Pump"⟩, [], []⟩)
        (Except.ok ⟨⟨⟨none, none⟩, ⟨none, none⟩, ⟨none, none⟩⟩⟩)
      = Except.error (GenError.fetchFailure ⟨"HTTP 500", 500⟩) ∧
    ∃ evs, generate "n" "t" (Except.ok ⟨some "f.csv", some 2⟩)
        (Except.ok ⟨⟨1, 0, 0, "Pump"⟩, [], []⟩)
        (Except.ok ⟨⟨⟨some ["a"], some [1]⟩, ⟨some ["b"], some [2]⟩,
          ⟨some ["c"], some [3]⟩⟩⟩)
      = Except.ok evs :=
  ⟨(C1_fetchfailure_and_success "n" "t").1 ⟨"HTTP 500", 500⟩ _ _,
   (C1_fetchfailure_and_success "n" "t").2.2.2 ⟨some "f.csv", some 2⟩
     ⟨⟨1, 0, 0, "Pump"⟩, [], []⟩
     ⟨⟨⟨some ["a"], some [1]⟩, ⟨some ["b"], some [2]⟩, ⟨some ["c"], some [3]⟩⟩⟩
     (fun _ => ⟨["b"], rfl⟩) (fun _ => ⟨["c"], rfl⟩)⟩

end ChemViz
